import Mathlib

/-!
Shallow embedding of the students-api HTTP handlers
(internal/http/handlers/student/student.go) and of the response-envelope
and storage-contract surface they use, together with proofs of the
specified handler properties.

Each handler is a pure function of the request-derived data (decoded
body, path id string) and of the storage call's result, returning the
ordered list of response writes it performs together with the ordered
list of storage calls it makes.
-/

namespace StudentsApi

/-- The Student value type (internal/types/types.go, not in src/).
Modelled from the spec: four fields, `id` system-assigned integer,
`name`/`email` text, `age` integer. -/
structure Student where
  id : Int
  name : String
  email : String
  age : Int
deriving DecidableEq

/-- A JSON value, as produced by serializing the response payloads. -/
inductive Json where
  | str : String → Json
  | num : Int → Json
  | arr : List Json → Json
  | obj : List (String × Json) → Json

/-- The body passed to response.WriteJson: either a value built by the
response helpers (serialized with its exported fields), or a raw Go
`error` value passed directly (which serializes by the error's dynamic
type, never with the envelope's status/error fields). -/
inductive Body where
  | json : Json → Body
  | raw : String → Body

/-- One response write: HTTP status code and body. -/
abbrev Write := Nat × Body

/-- A call made to the storage.Storage contract, with its arguments. -/
inductive StorageCall where
  | createStudent : String → String → Int → StorageCall
  | getStudentById : Int → StorageCall
  | getStudents : StorageCall
deriving DecidableEq

/-- The general error envelope (internal/utils/response/response.go, not
in src/). Modelled from the spec: GeneralError wraps an error message as
`\x7b"status":"error","error":<string>\x7d`. -/
def GeneralError (msg : String) : Json :=
  Json.obj [("status", Json.str "error"), ("error", Json.str msg)]

/-- Per-field validation message. Modelled from the spec: response.
ValidationError formats one message per violated field, "field name +
constraint". -/
def fieldRequiredMsg (field : String) : String :=
  "field " ++ field ++ " is a required field"

/-- The list of validation failures for a Student, in struct-field
order. Modelled from the spec: the field rules of the Student entity
are name required (non-empty), email required (non-empty), age required
(non-zero); `id` carries no rule since the store assigns it. -/
def validationMessages (s : Student) : List String :=
  (if s.name = "" then [fieldRequiredMsg "name"] else []) ++
    (if s.email = "" then [fieldRequiredMsg "email"] else []) ++
      (if s.age = 0 then [fieldRequiredMsg "age"] else [])

/-- The validation-error envelope. Modelled from the spec: response.
ValidationError joins the per-field messages into a single string and
delegates to the general error shape. -/
def ValidationError (msgs : List String) : Json :=
  GeneralError (String.intercalate ", " msgs)

/-- Result of json.Decoder.Decode on the request body: io.EOF for an
empty body, any other error for malformed JSON (carrying the decoder's
message), or the decoded Student. -/
inductive DecodeResult where
  | eof : DecodeResult
  | fail : String → DecodeResult
  | ok : Student → DecodeResult

/-- The value of one decimal digit, or none for a non-digit. -/
def digitVal (c : Char) : Option Nat :=
  if '0' ≤ c ∧ c ≤ '9' then some (c.toNat - 48) else none

/-- Reads a non-empty all-digit run as a Nat; none on any non-digit or
on the empty run. -/
def parseDigits : List Char → Option Nat
  | [] => none
  | l =>
    l.foldl
      (fun acc c =>
        match acc, digitVal c with
        | some n, some d => some (n * 10 + d)
        | _, _ => none)
      (some 0)

/-- strconv.ParseInt(s, 10, 64): optional sign, then decimal digits;
error on empty/ill-formed input or on overflow of the signed 64-bit
range. On failure the Go error's message is returned. -/
def parseInt64 (s : String) : Except String Int :=
  let (neg, digits) :=
    match s.toList with
    | '-' :: rest => (true, rest)
    | '+' :: rest => (false, rest)
    | rest => (false, rest)
  match parseDigits digits with
  | none =>
    Except.error ("strconv.ParseInt: parsing \"" ++ s ++ "\": invalid syntax")
  | some n =>
    let v : Int := if neg then -(n : Int) else (n : Int)
    if v < -(2 ^ 63) ∨ (2 ^ 63 - 1 : Int) < v then
      Except.error ("strconv.ParseInt: parsing \"" ++ s ++ "\": value out of range")
    else
      Except.ok v

/-- The Create handler (student.New). Takes the body-decode outcome and
the (lastId, err) pair that storage.CreateStudent would return, and
yields the writes it performs and the storage calls it makes, in order.
Mirrors the source: EOF → 400 "empty body"; other decode error → 400
with the decode error; validation failure → 400 with the validation
envelope; otherwise CreateStudent is called, a storage error is written
as the raw error value with 500, and success writes 201 with the id. -/
def New (decoded : DecodeResult) (createResult : Int × Option String) :
    List Write × List StorageCall :=
  match decoded with
  | DecodeResult.eof =>
    ([(400, Body.json (GeneralError "empty body"))], [])
  | DecodeResult.fail msg =>
    ([(400, Body.json (GeneralError msg))], [])
  | DecodeResult.ok student =>
    if validationMessages student ≠ [] then
      ([(400, Body.json (ValidationError (validationMessages student)))], [])
    else
      match createResult with
      | (_, some e) =>
        ([(500, Body.raw e)],
          [StorageCall.createStudent student.name student.email student.age])
      | (lastId, none) =>
        ([(201, Body.json (Json.obj [("id", Json.num lastId)]))],
          [StorageCall.createStudent student.name student.email student.age])

/-- JSON shape of one Student. Modelled from the spec: the Student JSON
shape is id, name, email, age (types.go with its json tags is not in
src/). -/
def studentJson (s : Student) : Json :=
  Json.obj
    [("id", Json.num s.id), ("name", Json.str s.name),
      ("email", Json.str s.email), ("age", Json.num s.age)]

/-- The GetById handler. Takes the raw path id string and the
(student, err) pair that storage.GetStudentById would return. Mirrors
the source: parse failure → 400 and return; storage error → 500 with
the error envelope, after which the source does NOT return and falls
through to the unconditional 200 write of the (zero-valued) student. -/
def GetById (idStr : String) (getResult : Student × Option String) :
    List Write × List StorageCall :=
  match parseInt64 idStr with
  | Except.error e =>
    ([(400, Body.json (GeneralError e))], [])
  | Except.ok intId =>
    match getResult with
    | (student, some e) =>
      ([(500, Body.json (GeneralError e)),
        (200, Body.json (studentJson student))],
        [StorageCall.getStudentById intId])
    | (student, none) =>
      ([(200, Body.json (studentJson student))],
        [StorageCall.getStudentById intId])

/-- The GetList handler. Takes the (students, err) pair that
storage.GetStudents would return. Mirrors the source: storage error →
500 with the raw error value and return; success → 200 with the list. -/
def GetList (listResult : List Student × Option String) :
    List Write × List StorageCall :=
  match listResult with
  | (_, some e) =>
    ([(500, Body.raw e)], [StorageCall.getStudents])
  | (students, none) =>
    ([(200, Body.json (Json.arr (students.map studentJson)))],
      [StorageCall.getStudents])

mutual

/-- Serialization of a JSON value to its text, as encoding/json renders
the handler payloads (string escaping beyond the quote is not needed by
the properties below). Modelled from the spec where it concerns the
empty list: an empty sequence serializes to an empty JSON array. -/
def renderJson : Json → String
  | Json.str s => "\"" ++ s ++ "\""
  | Json.num n => toString n
  | Json.arr l => "[" ++ renderJsonArr l ++ "]"
  | Json.obj l => "\x7b" ++ renderJsonObj l ++ "\x7d"

/-- Comma-joined rendering of array elements. -/
def renderJsonArr : List Json → String
  | [] => ""
  | [x] => renderJson x
  | x :: xs => renderJson x ++ "," ++ renderJsonArr xs

/-- Comma-joined rendering of object fields. -/
def renderJsonObj : List (String × Json) → String
  | [] => ""
  | [(k, v)] => "\"" ++ k ++ "\":" ++ renderJson v
  | (k, v) :: xs => "\"" ++ k ++ "\":" ++ renderJson v ++ "," ++ renderJsonObj xs

end

/-- A Student passes validation exactly when name and email are
non-empty and age is non-zero. -/
theorem validationMessages_eq_nil (s : Student) :
    validationMessages s = [] ↔ s.name ≠ "" ∧ s.email ≠ "" ∧ s.age ≠ 0 := by
  unfold validationMessages
  split_ifs <;> simp_all [fieldRequiredMsg]

/-- Claim C1 (code bug in the source): on a GET /api/students/1 request
whose storage call fails, the GetById handler performs TWO writes — the
500 error envelope and then the 200 response with the zero-valued
Student — instead of the single write the contract requires. -/
theorem getById_double_write_on_storage_error :
    GetById "1" (⟨0, "", "", 0⟩, some "db failure") =
      ([(500, Body.json (GeneralError "db failure")),
        (200, Body.json (studentJson ⟨0, "", "", 0⟩))],
        [StorageCall.getStudentById 1]) ∧
    (GetById "1" (⟨0, "", "", 0⟩, some "db failure")).1.length = 2 :=
  ⟨rfl, rfl⟩

/-- Claim C2 (code bug in the source): on a POST /api/students request
that decodes and validates but whose storage create fails, the handler
responds 500 with the raw error value as the body — which is never the
general \x7b"status":"error","error":<string>\x7d envelope the spec
requires. -/
theorem create_storage_error_raw_body :
    New (DecodeResult.ok ⟨0, "John", "john@example.com", 20⟩)
        (0, some "insert failed") =
      ([(500, Body.raw "insert failed")],
        [StorageCall.createStudent "John" "john@example.com" 20]) ∧
    ∀ msg, Body.raw "insert failed" ≠ Body.json (GeneralError msg) :=
  ⟨rfl, fun _ h => Body.noConfusion h⟩

/-- Claim C3: when the storage list call fails, the GetList handler
writes exactly one response: 500 with the raw error value, which is
never the general error envelope. -/
theorem getList_storage_error_raw (ss : List Student) (e : String) :
    GetList (ss, some e) = ([(500, Body.raw e)], [StorageCall.getStudents]) ∧
    ∀ msg, Body.raw e ≠ Body.json (GeneralError msg) :=
  ⟨rfl, fun _ h => Body.noConfusion h⟩

/-- Witness for C3 at a concrete storage error. -/
theorem getList_storage_error_raw_witness :
    GetList ([], some "db failure") =
      ([(500, Body.raw "db failure")], [StorageCall.getStudents]) ∧
    ∀ msg, Body.raw "db failure" ≠ Body.json (GeneralError msg) :=
  getList_storage_error_raw [] "db failure"

/-- Claim C4: an empty POST body yields exactly one write, 400 with the
envelope whose message is exactly "empty body"; any malformed-JSON
decode failure with a different decoder message yields a different
response. -/
theorem create_empty_body (cr : Int × Option String) (msg : String)
    (h : msg ≠ "empty body") :
    New DecodeResult.eof cr =
      ([(400, Body.json (GeneralError "empty body"))], []) ∧
    (New (DecodeResult.fail msg) cr).1 ≠ (New DecodeResult.eof cr).1 := by
  refine ⟨rfl, ?_⟩
  simpa [New, GeneralError] using h

/-- Witness for C4 at a concrete malformed-JSON message. -/
theorem create_empty_body_witness :
    New DecodeResult.eof (0, none) =
      ([(400, Body.json (GeneralError "empty body"))], []) ∧
    (New (DecodeResult.fail "invalid character") (0, none)).1 ≠
      (New DecodeResult.eof (0, none)).1 :=
  create_empty_body (0, none) "invalid character" (by decide)

/-- Claim C5: a POST that decodes, validates, and whose storage create
succeeds with identifier lastId responds exactly once with 201 and body
\x7b"id": lastId\x7d, the identifier being the one storage returned. -/
theorem create_success (s : Student) (lastId : Int)
    (hn : s.name ≠ "") (he : s.email ≠ "") (ha : s.age ≠ 0) :
    New (DecodeResult.ok s) (lastId, none) =
      ([(201, Body.json (Json.obj [("id", Json.num lastId)]))],
        [StorageCall.createStudent s.name s.email s.age]) := by
  have hv : validationMessages s = [] :=
    (validationMessages_eq_nil s).mpr ⟨hn, he, ha⟩
  simp [New, hv]

/-- Witness for C5 at a concrete valid student and id 7. -/
theorem create_success_witness :
    New (DecodeResult.ok ⟨0, "Jane", "jane@example.com", 21⟩) (7, none) =
      ([(201, Body.json (Json.obj [("id", Json.num 7)]))],
        [StorageCall.createStudent "Jane" "jane@example.com" 21]) :=
  create_success ⟨0, "Jane", "jane@example.com", 21⟩ 7
    (by decide) (by decide) (by decide)

/-- Claim C6: a decoded Student violating any field rule is rejected
with a single 400 write carrying the validation envelope, the message
list has exactly one entry per violated field, and no storage call is
made. -/
theorem create_validation_reject (s : Student) (cr : Int × Option String)
    (h : s.name = "" ∨ s.email = "" ∨ s.age = 0) :
    New (DecodeResult.ok s) cr =
      ([(400, Body.json (ValidationError (validationMessages s)))], []) ∧
    (validationMessages s).length =
      ((if s.name = "" then 1 else 0) + (if s.email = "" then 1 else 0) +
        (if s.age = 0 then 1 else 0)) := by
  have hv : validationMessages s ≠ [] := by
    intro hnil
    rcases (validationMessages_eq_nil s).mp hnil with ⟨hn, he, ha⟩
    rcases h with h | h | h <;> simp_all
  constructor
  · simp [New, hv]
  · unfold validationMessages
    split_ifs <;> simp

/-- Witness for C6 at a Student with an empty name. -/
theorem create_validation_reject_witness :
    New (DecodeResult.ok ⟨0, "", "a@b.com", 20⟩) (0, none) =
      ([(400,
        Body.json (ValidationError (validationMessages ⟨0, "", "a@b.com", 20⟩)))],
        []) ∧
    (validationMessages ⟨0, "", "a@b.com", 20⟩).length =
      ((if ("" : String) = "" then 1 else 0) +
        (if ("a@b.com" : String) = "" then 1 else 0) +
        (if (20 : Int) = 0 then 1 else 0)) :=
  create_validation_reject ⟨0, "", "a@b.com", 20⟩ (0, none) (Or.inl rfl)

/-- Claim C7: a path id that does not parse as an integer yields exactly
one write, 400 with the parse error in the envelope, and no storage
call. -/
theorem getById_parse_failure (idStr : String) (r : Student × Option String)
    (e : String) (h : parseInt64 idStr = Except.error e) :
    GetById idStr r = ([(400, Body.json (GeneralError e))], []) := by
  simp [GetById, h]

/-- Witness for C7 at the non-integer id "abc". -/
theorem getById_parse_failure_witness :
    parseInt64 "abc" =
      Except.error "strconv.ParseInt: parsing \"abc\": invalid syntax" ∧
    GetById "abc" (⟨0, "", "", 0⟩, none) =
      ([(400, Body.json
        (GeneralError "strconv.ParseInt: parsing \"abc\": invalid syntax"))],
        []) :=
  ⟨rfl, getById_parse_failure "abc" (⟨0, "", "", 0⟩, none) _ rfl⟩

/-- Claim C8: a non-empty body that fails to decode yields exactly one
write, 400 with the decode error in the general envelope, and neither
validation nor any storage call runs. -/
theorem create_malformed_json (msg : String) (cr : Int × Option String) :
    New (DecodeResult.fail msg) cr =
      ([(400, Body.json (GeneralError msg))], []) :=
  rfl

/-- Witness for C8 at a concrete decode error. -/
theorem create_malformed_json_witness :
    New (DecodeResult.fail "unexpected end of JSON input") (0, none) =
      ([(400, Body.json (GeneralError "unexpected end of JSON input"))], []) :=
  create_malformed_json "unexpected end of JSON input" (0, none)

/-- Claim C9: when the storage list call succeeds the handler writes
exactly one response, 200 with exactly the sequence storage returned;
the empty sequence serializes to the empty JSON array "[]". -/
theorem getList_success (ss : List Student) :
    GetList (ss, none) =
      ([(200, Body.json (Json.arr (ss.map studentJson)))],
        [StorageCall.getStudents]) ∧
    renderJson (Json.arr (([] : List Student).map studentJson)) = "[]" := by
  refine ⟨rfl, ?_⟩
  simp [renderJson, renderJsonArr]

/-- Witness for C9 at the empty store. -/
theorem getList_success_witness :
    GetList ([], none) =
      ([(200, Body.json (Json.arr (([] : List Student).map studentJson)))],
        [StorageCall.getStudents]) ∧
    renderJson (Json.arr (([] : List Student).map studentJson)) = "[]" :=
  getList_success []

/-- Claim C10: every storage create call the Create handler makes
carries field values from a Student that passed validation: the name
and email arguments are non-empty and the age argument is non-zero. -/
theorem create_calls_only_validated (d : DecodeResult)
    (cr : Int × Option String) (n e : String) (a : Int)
    (h : StorageCall.createStudent n e a ∈ (New d cr).2) :
    n ≠ "" ∧ e ≠ "" ∧ a ≠ 0 := by
  cases d with
  | eof => simp [New] at h
  | fail msg => simp [New] at h
  | ok s =>
    by_cases hv : validationMessages s = []
    · rcases (validationMessages_eq_nil s).mp hv with ⟨hn, he, ha⟩
      rcases cr with ⟨lastId, err⟩
      cases err with
      | none =>
        simp [New, hv] at h
        rcases h with ⟨h1, h2, h3⟩
        subst h1; subst h2; subst h3
        exact ⟨hn, he, ha⟩
      | some msg =>
        simp [New, hv] at h
        rcases h with ⟨h1, h2, h3⟩
        subst h1; subst h2; subst h3
        exact ⟨hn, he, ha⟩
    · simp [New, hv] at h

/-- Witness for C10 at a concrete valid creation. -/
theorem create_calls_only_validated_witness :
    (StorageCall.createStudent "Jane" "jane@example.com" 21 ∈
      (New (DecodeResult.ok ⟨0, "Jane", "jane@example.com", 21⟩) (7, none)).2) ∧
    ("Jane" ≠ "" ∧ "jane@example.com" ≠ "" ∧ (21 : Int) ≠ 0) :=
  ⟨by decide,
    create_calls_only_validated
      (DecodeResult.ok ⟨0, "Jane", "jane@example.com", 21⟩) (7, none)
      "Jane" "jane@example.com" 21 (by decide)⟩

end StudentsApi
